import Mathlib

/-!
Verification of the message aggregation and summarization pipeline of
`src/discord_bot.py` (a Discord summarizer bot), against its natural-language
specification.  Text is modelled as `List Char` (Python `str` indexes by code
point, as `List Char` does); the Discord client and the generation backend are
opaque collaborators modelled as parameters.
-/

/-- Text: a Python `str`, as its sequence of code points. -/
abbrev Str := List Char

/-! ## Response chunking (src/discord_bot.py lines 334-340 and 401-410)

Both delivery sites split an oversized summary with the comprehension
`chunks = [summary[i:i+2000] for i in range(0, len(summary), 2000)]`,
guarded by `if len(summary) > 2000`.  `splitChunks` embeds the comprehension
recursively (first slice, then the slices of the rest); `pyRangeChunks` is the
literal index-based transliteration (`range(0, L, 2000)` enumerates
`2000*k` for `k < ceil(L/2000)`, and `summary[i:i+2000]` is `drop i` then
`take 2000`); the two are proved equal below. -/

def splitChunks : Str → List Str
  | [] => []
  | c :: rest => ((c :: rest).take 2000) :: splitChunks ((c :: rest).drop 2000)
termination_by s => s.length
decreasing_by simp [List.length_drop]; omega

/-- Literal transliteration of the Python comprehension
`[summary[i:i+2000] for i in range(0, len(summary), 2000)]`. -/
def pyRangeChunks (s : Str) : List Str :=
  (List.range ((s.length + 1999) / 2000)).map (fun k => (s.drop (2000 * k)).take 2000)

/-- `summarize_command` delivery (lines 334-340): split when over 2000
characters, otherwise send the summary as the single message; no chunk is
annotated. -/
def sendSummaryPlain (summary : Str) : List Str :=
  if 2000 < summary.length then splitChunks summary else [summary]

/-- The continuation marker of `summarize_custom_command` line 408:
`f"**Continued ({i+1}/{len(chunks)}):**\n"`. -/
def contMarker (k n : Nat) : Str :=
  "**Continued (".toList ++ (Nat.repr k).toList ++ "/".toList
    ++ (Nat.repr n).toList ++ "):**\n".toList

/-- The `for i, chunk in enumerate(chunks)` loop of lines 404-408: the chunk at
index 0 is sent as is, every later chunk is sent with `contMarker (i+1) n`
prepended. -/
def annotateChunks (n : Nat) (i : Nat) : List Str → List Str
  | [] => []
  | c :: rest => (if i = 0 then c else contMarker (i + 1) n ++ c) :: annotateChunks n (i + 1) rest

/-- `summarize_custom_command` delivery (lines 401-410). -/
def sendSummaryCustom (summary : Str) : List Str :=
  if 2000 < summary.length then
    annotateChunks (splitChunks summary).length 0 (splitChunks summary)
  else [summary]

/-! ## Fallback summarizer `_create_simple_summary` (lines 137-154) -/

/-- Python `str(n)` for a message count. -/
def natStr (n : Nat) : Str := (Nat.repr n).toList

/-- One bullet line of the small-window branch, line 142:
`f"• {msg[:100]}..." if len(msg) > 100 else f"• {msg}"`. -/
def bulletLine (msg : Str) : Str :=
  if 100 < msg.length then "• ".toList ++ msg.take 100 ++ "...".toList
  else "• ".toList ++ msg

/-- The excerpt of a message: its text after the bullet glyph, i.e. the first
100 characters with an ellipsis marker appended exactly when the message is
longer than 100 characters. -/
def excerpt (msg : Str) : Str :=
  if 100 < msg.length then msg.take 100 ++ "...".toList else msg

/-- Python `msg.split(':')[0]`: the part of the message before its first
colon. -/
def beforeColon (msg : Str) : Str := msg.takeWhile (fun c => c != ':')

/-- One step of the participant-collection loop of lines 145-148:
`if ':' in msg: participants.add(msg.split(':')[0])`.  Python's `set` has
unspecified iteration order; the set is determinized here as an
insertion-ordered duplicate-free list, which preserves exactly the membership
and cardinality facts the claims are about. -/
def addParticipant (acc : List Str) (msg : Str) : List Str :=
  if msg.contains ':' then
    if beforeColon msg ∈ acc then acc else acc ++ [beforeColon msg]
  else acc

/-- The collected participant identifiers of lines 145-148. -/
def collectParticipants (messages : List Str) : List Str :=
  messages.foldl addParticipant []

/-- `MessageSummarizer._create_simple_summary` (lines 137-154): the fallback
summary when the backend is unavailable or fails. -/
def _create_simple_summary (messages : List Str) (channelName : Str) : Str :=
  if messages.length ≤ 5 then
    "**Summary of #".toList ++ channelName ++ "** (".toList ++ natStr messages.length
      ++ " messages):\n\n".toList
      ++ "This was a brief conversation with the following key messages:\n".toList
      ++ List.intercalate "\n".toList ((messages.take 3).map bulletLine)
  else
    "**Summary of #".toList ++ channelName ++ "** (".toList ++ natStr messages.length
      ++ " messages):\n\n".toList
      ++ "🗣️ **Participants**: ".toList
      ++ List.intercalate ", ".toList ((collectParticipants messages).take 5)
      ++ "\n".toList
      ++ "📅 **Time Range**: Recent activity\n".toList
      ++ "💬 **Activity Level**: ".toList ++ natStr messages.length
      ++ " messages exchanged\n\n".toList
      ++ "⚠️ *Detailed AI summary unavailable - Claude API key not configured*".toList

/-! ## `MessageSummarizer.summarize_messages_custom` (lines 18-84)

The Anthropic client is opaque: its presence is the Python truthiness of the
key at construction (`self.client = anthropic.Anthropic(...) if
anthropic_api_key else None`, line 23), and the single blocking call of lines
57-69 is a parameter `backend` from the built prompt to either the generated
text or the raised error's message. -/

/-- Whether `self.client` is non-None: the key is present and non-empty
(Python string truthiness). -/
def hasClient (apiKey : Option String) : Bool :=
  match apiKey with
  | none => false
  | some s => !s.isEmpty

/-- Line 35: `combined_text = "\n".join(messages)`. -/
def combineMessages (messages : List Str) : Str :=
  List.intercalate "\n".toList messages

/-- Lines 42-44: keep only the trailing 150000 characters of an oversized
blob (`combined_text[-150000:]`); a blob within budget passes unmodified. -/
def truncateCombined (s : Str) : Str :=
  if 150000 < s.length then s.drop (s.length - 150000) else s

/-- Lines 47-51: the full prompt, custom instruction first, then the channel
reference, then the (truncated) message blob. -/
def buildFullPrompt (customPrompt channelName combined : Str) : Str :=
  customPrompt ++ "\n\nHere are the Discord messages from #".toList
    ++ channelName ++ ":\n\n".toList ++ combined

/-- Lines 72-75: the metadata header of a successful backend summary; `now` is
the formatted generation timestamp. -/
def customHeader (channelName : Str) (n : Nat) (customPrompt now : Str) : Str :=
  "🤖 **Custom Claude Summary of #".toList ++ channelName ++ "**\n".toList
    ++ "📊 ".toList ++ natStr n ++ " messages analyzed\n".toList
    ++ "📝 Custom prompt: ".toList ++ customPrompt.take 100
    ++ (if 100 < customPrompt.length then "...".toList else [])
    ++ "\n".toList
    ++ "⏰ Generated at ".toList ++ now ++ "\n\n".toList

/-- The result of one run of the method, together with whether the backend was
called at all. -/
structure CustomRun where
  output : Str
  calledApi : Bool
deriving DecidableEq

/-- `summarize_messages_custom` (lines 25-84): empty window short-circuits; a
missing client routes to the fallback with no backend call; otherwise the
blob is combined, truncated and wrapped into the prompt, and the backend
outcome is either prefixed with the header (success) or replaced by the error
banner plus the fallback summary (lines 80-84). -/
def summarize_messages_custom (apiKey : Option String) (backend : Str → Except Str Str)
    (messages : List Str) (channelName customPrompt now : Str) : CustomRun :=
  if messages = [] then ⟨"No messages to summarize.".toList, false⟩
  else if hasClient apiKey then
    match backend (buildFullPrompt customPrompt channelName
        (truncateCombined (combineMessages messages))) with
    | Except.ok summaryText =>
        ⟨customHeader channelName messages.length customPrompt now ++ summaryText, true⟩
    | Except.error e =>
        ⟨"❌ **Error generating AI summary**: ".toList ++ e ++ "\n\n".toList
          ++ _create_simple_summary messages channelName, true⟩
  else ⟨_create_simple_summary messages channelName, false⟩

/-! ## `fetch_messages_by_date_range` (lines 159-203)

The dates are modelled after parsing, as whole days (both `strptime` results
are midnights, so every difference is an exact number of days).  The opaque
`channel.history(limit=..., after=..., before=...)` iterator is a parameter:
the list of events it yields for the requested window, each either a raw
message or a raised retrieval error (`discord.Forbidden` or any other
exception). -/

/-- A message as the Discord client delivers it: display name, formatted
`created_at` timestamp, content, and the `author.bot` flag. -/
structure RawMsg where
  author : Str
  timestamp : Str
  content : Str
  bot : Bool
deriving DecidableEq

/-- Line 181: `f"{message.author.display_name} ({timestamp}): {message.content}"`. -/
def formatDateRangeMsg (m : RawMsg) : Str :=
  m.author ++ " (".toList ++ m.timestamp ++ "): ".toList ++ m.content

/-- One event of the history iteration: a delivered message, or an error
raised by the retrieval at that point. -/
inductive HistoryItem where
  | msg (m : RawMsg)
  | err (e : Str)
deriving DecidableEq

/-- The `async for` loop of lines 177-187: accumulate formatted non-bot
messages in delivery order; an error raised mid-iteration aborts the whole
`try` body. -/
def historyLoop (acc : List Str) : List HistoryItem → Except Str (List Str)
  | [] => Except.ok acc
  | HistoryItem.err e :: _ => Except.error e
  | HistoryItem.msg m :: rest =>
      historyLoop (if m.bot then acc else acc ++ [formatDateRangeMsg m]) rest

/-- Lines 163-172: `end_datetime = end + 1 day` (inclusive end day);
`days_diff = (end_datetime - start_datetime).days`; a difference over 90 days
resets the start to `end_datetime - 90 days`, leaving the end bound
unchanged. -/
def clampDateWindow (startDay endDay : Int) : Int × Int :=
  if 90 < (endDay + 1) - startDay then (endDay + 1 - 90, endDay + 1)
  else (startDay, endDay + 1)

/-- `fetch_messages_by_date_range` after date parsing: run the history
iteration over the clamped window; on success reverse into chronological
order (line 192), and on any raised retrieval error return the empty list
(lines 198-203). -/
def fetch_messages_by_date_range (startDay endDay : Int)
    (history : Int × Int → List HistoryItem) : List Str :=
  match historyLoop [] (history (clampDateWindow startDay endDay)) with
  | Except.ok msgs => msgs.reverse
  | Except.error _ => []

/-! ## `summarize_command` (lines 319-340)

The module's top-level bindings, read off `src/discord_bot.py`: the imports
(lines 1-8), the globals of lines 11-16 and 156-157, and the function and
class definitions.  `fetch_recent_messages` is bound nowhere: its intended
body is unreachable dead code inside `fetch_messages_by_date_range` (lines
204-224, after every path of the surrounding `try` has returned).  Likewise
`MessageSummarizer` defines no `summarize_messages` method: that body is dead
code inside `summarize_messages_custom` (lines 85-135). -/

def moduleGlobalNames : List String :=
  ["discord", "commands", "asyncio", "datetime", "timedelta", "os", "List",
   "anthropic", "AsyncAnthropic", "intents", "bot", "ANTHROPIC_API_KEY",
   "MessageSummarizer", "summarizer", "fetch_messages_by_date_range",
   "on_ready", "on_message", "on_command_error", "on_command",
   "ping_command", "test_command", "help_command",
   "summarize_command", "summarize_custom_command", "main"]

def messageSummarizerMethods : List String :=
  ["__init__", "summarize_messages_custom", "_create_simple_summary"]

/-- The body of `summarize_command` (lines 319-340) up to its first failure:
line 324 resolves the name `fetch_recent_messages` (a NameError when absent
from the module), and line 332 would then resolve
`summarizer.summarize_messages` (an AttributeError when the class has no such
method).  Neither name exists in this source, so the command always raises
before fetching anything. -/
def summarize_command_run (_hours _limit : Nat) : Except String String :=
  if "fetch_recent_messages" ∈ moduleGlobalNames then
    if "summarize_messages" ∈ messageSummarizerMethods then
      Except.ok "unreachable in this source"
    else Except.error "AttributeError: MessageSummarizer object has no attribute summarize_messages"
  else Except.error "NameError: name fetch_recent_messages is not defined"

/-- Concrete window for the participant-extraction counterexample: six
non-bot messages, all by the display name alice, formatted exactly as
`fetch_messages_by_date_range` formats them. -/
def exRawMsgs : List RawMsg :=
  [⟨"alice".toList, "2025-05-20 10:30".toList, "hi".toList, false⟩,
   ⟨"alice".toList, "2025-05-20 10:31".toList, "hi".toList, false⟩,
   ⟨"alice".toList, "2025-05-20 10:32".toList, "hi".toList, false⟩,
   ⟨"alice".toList, "2025-05-20 11:30".toList, "hi".toList, false⟩,
   ⟨"alice".toList, "2025-05-20 11:31".toList, "hi".toList, false⟩,
   ⟨"alice".toList, "2025-05-20 11:32".toList, "hi".toList, false⟩]

def exMessages : List Str := exRawMsgs.map formatDateRangeMsg

lemma splitChunks_nil : splitChunks [] = [] := by
  rw [splitChunks]

lemma splitChunks_cons (c : Char) (rest : Str) :
    splitChunks (c :: rest) =
      ((c :: rest).take 2000) :: splitChunks ((c :: rest).drop 2000) := by
  rw [splitChunks]

lemma splitChunks_flatten (s : Str) : (splitChunks s).flatten = s := by
  induction s using splitChunks.induct with
  | case1 => simp [splitChunks_nil]
  | case2 c rest ih =>
      rw [splitChunks_cons, List.flatten_cons, ih, List.take_append_drop]

lemma splitChunks_length (s : Str) :
    (splitChunks s).length = (s.length + 1999) / 2000 := by
  induction s using splitChunks.induct with
  | case1 => simp [splitChunks_nil]
  | case2 c rest ih =>
      rw [splitChunks_cons]
      simp only [List.length_cons, List.length_drop] at ih ⊢
      omega

lemma splitChunks_chunk_le (s : Str) : ∀ c ∈ splitChunks s, c.length ≤ 2000 := by
  induction s using splitChunks.induct with
  | case1 => simp [splitChunks_nil]
  | case2 c rest ih =>
      rw [splitChunks_cons]
      intro d hd
      rcases List.mem_cons.mp hd with h | h
      · subst h
        rw [List.length_take]
        omega
      · exact ih d h

lemma pyRangeChunks_cons (c : Char) (rest : Str) :
    pyRangeChunks (c :: rest) =
      ((c :: rest).take 2000) :: pyRangeChunks ((c :: rest).drop 2000) := by
  have hcount : ((c :: rest).length + 1999) / 2000
      = (((c :: rest).drop 2000).length + 1999) / 2000 + 1 := by
    simp only [List.length_drop, List.length_cons]; omega
  unfold pyRangeChunks
  simp only [hcount, List.range_succ_eq_map, List.map_cons, List.map_map, Function.comp_def,
    Nat.mul_zero, List.drop_zero, Nat.mul_succ, Nat.succ_eq_add_one, Nat.mul_add, Nat.mul_one,
    List.drop_drop, Nat.add_comm 2000]

lemma pyRangeChunks_eq_splitChunks (s : Str) : pyRangeChunks s = splitChunks s := by
  induction s using splitChunks.induct with
  | case1 => simp [pyRangeChunks, splitChunks_nil]
  | case2 c rest ih => rw [pyRangeChunks_cons, splitChunks_cons, ih]

lemma splitChunks_eq_cons (s : Str) (hs : s ≠ []) :
    splitChunks s = s.take 2000 :: splitChunks (s.drop 2000) := by
  cases s with
  | nil => exact absurd rfl hs
  | cons c rest => exact splitChunks_cons c rest

lemma splitChunks_two_of (s : Str) (h1 : 2000 < s.length) (h2 : s.length ≤ 4000) :
    splitChunks s = [s.take 2000, s.drop 2000] := by
  have hne : s ≠ [] := by
    intro h
    rw [h] at h1
    simp at h1
  have hdne : s.drop 2000 ≠ [] := by
    intro h
    have := congrArg List.length h
    rw [List.length_drop] at this
    simp at this
    omega
  rw [splitChunks_eq_cons s hne, splitChunks_eq_cons _ hdne]
  have htk : (s.drop 2000).take 2000 = s.drop 2000 := by
    apply List.take_of_length_le
    rw [List.length_drop]
    omega
  have hdr : (s.drop 2000).drop 2000 = [] := by
    apply List.drop_eq_nil_of_le
    rw [List.length_drop]
    omega
  rw [htk, hdr, splitChunks_nil]

lemma annotateChunks_getElem? (n : Nat) (l : List Str) (i j : Nat) :
    (annotateChunks n i l)[j]? = (l[j]?).map
      (fun c => if i + j = 0 then c else contMarker (i + j + 1) n ++ c) := by
  induction l generalizing i j with
  | nil => simp [annotateChunks]
  | cons c rest ih =>
      cases j with
      | zero => simp [annotateChunks]
      | succ j =>
          have hidx : i + 1 + j = i + (j + 1) := by omega
          simp only [annotateChunks, List.getElem?_cons_succ, ih (i + 1) j, hidx]

lemma annotateChunks_length (n i : Nat) (l : List Str) :
    (annotateChunks n i l).length = l.length := by
  induction l generalizing i with
  | nil => simp [annotateChunks]
  | cons c rest ih => simp [annotateChunks, ih]

lemma getElem?_one {α : Type} (a b : α) (l : List α) : (a :: b :: l)[1]? = some b := by
  rw [show (1 : Nat) = 0 + 1 from rfl, List.getElem?_cons_succ, List.getElem?_cons_zero]

lemma sendSummaryCustom_getElem? (s : Str) (j : Nat) (hs : 2000 < s.length) (hj : 0 < j) :
    (sendSummaryCustom s)[j]? = ((splitChunks s)[j]?).map
      (fun c => contMarker (j + 1) (splitChunks s).length ++ c) := by
  unfold sendSummaryCustom
  rw [if_pos hs, annotateChunks_getElem?]
  have hj0 : ¬ j = 0 := by omega
  simp only [Nat.zero_add, if_neg hj0]

/-! ## Claim C2: chunk composition -/

/-- Claim C2 counterexample: the claim quantifies over every summary string S and
demands chunk count = ceil(len(S)/M), but at the empty summary the code sends a
single (empty) message while ceil(0/2000) = 0. -/
theorem C2_chunking_counterexample :
    ¬ ((sendSummaryPlain []).length = (([] : Str).length + 1999) / 2000) := by
  decide

/-- Claim C2 (amended to non-empty summaries): for every non-empty summary S and
the fixed maximum segment size 2000, the chunking performed before delivery
yields chunks whose concatenation reproduces S exactly, each of length at most
2000, with chunk count ceil(len(S)/2000); when len(S) is at most 2000 the
delivered sequence is the single element S.  (At the empty summary the code
sends one empty message, so the count clause holds only for non-empty S.) -/
theorem C2_chunking (s : Str) (hs : s ≠ []) :
    (sendSummaryPlain s).flatten = s
    ∧ (∀ c ∈ sendSummaryPlain s, c.length ≤ 2000)
    ∧ (sendSummaryPlain s).length = (s.length + 1999) / 2000
    ∧ (s.length ≤ 2000 → sendSummaryPlain s = [s]) := by
  have hpos : 0 < s.length := List.length_pos.mpr hs
  unfold sendSummaryPlain
  by_cases h : 2000 < s.length
  · rw [if_pos h]
    exact ⟨splitChunks_flatten s, splitChunks_chunk_le s, splitChunks_length s,
      fun hle => absurd h (by omega)⟩
  · rw [if_neg h]
    refine ⟨by simp, ?_, ?_, fun _ => rfl⟩
    · intro c hc
      rw [List.mem_singleton] at hc
      subst hc
      omega
    · simp only [List.length_singleton]
      omega

/-- Claim C2 witness at the three-character summary. -/
theorem C2_chunking_witness :
    "abc".toList ≠ ([] : Str)
    ∧ ((sendSummaryPlain "abc".toList).flatten = "abc".toList
      ∧ (∀ c ∈ sendSummaryPlain "abc".toList, c.length ≤ 2000)
      ∧ (sendSummaryPlain "abc".toList).length = ("abc".toList.length + 1999) / 2000
      ∧ ("abc".toList.length ≤ 2000 → sendSummaryPlain "abc".toList = ["abc".toList])) :=
  ⟨by decide, C2_chunking "abc".toList (by decide)⟩

/-! ## Claims C9 and C10: continuation markers -/

lemma splitChunks_replicate_2001 :
    splitChunks (List.replicate 2001 'a') = [List.replicate 2000 'a', List.replicate 1 'a'] := by
  rw [splitChunks_two_of (List.replicate 2001 'a')
    (by rw [List.length_replicate]; omega) (by rw [List.length_replicate]; omega)]
  rw [List.take_replicate, List.drop_replicate]
  norm_num

/-- Claim C9 counterexample: in `summarize_command` delivery (lines 334-340) the
chunks of an oversized summary are sent bare: at a 2001-character summary the
second delivered message is the final character alone, with no continuation
marker, so the annotation property does not hold for every summarization
command's delivery. -/
theorem C9_continuation_counterexample :
    2000 < (List.replicate 2001 'a').length
    ∧ (sendSummaryPlain (List.replicate 2001 'a'))[1]? = some (List.replicate 1 'a')
    ∧ ¬ ("**Continued (".toList <+: List.replicate 1 'a') := by
  refine ⟨by rw [List.length_replicate]; omega, ?_, by decide⟩
  unfold sendSummaryPlain
  rw [if_pos (by rw [List.length_replicate]; omega), splitChunks_replicate_2001]
  exact getElem?_one _ _ _

/-- Claim C9 (amended): in `summarize_custom` delivery, when the total text
exceeds one chunk every chunk after the first is sent with the continuation
marker "**Continued (i+1/n):**" prepended, and a summary that fits in one chunk
is sent as a single unannotated message; `summarize_command` delivery, by
contrast, sends every chunk unannotated (and is in any case unreachable, since
the command fails on the undefined `fetch_recent_messages`). -/
theorem C9_continuation (s : Str) :
    (s.length ≤ 2000 → sendSummaryCustom s = [s])
    ∧ (2000 < s.length → ∀ j : Nat, 0 < j →
        (sendSummaryCustom s)[j]? = ((splitChunks s)[j]?).map
          (fun c => contMarker (j + 1) (splitChunks s).length ++ c)) := by
  constructor
  · intro hle
    unfold sendSummaryCustom
    rw [if_neg (by omega)]
  · intro hs j hj
    exact sendSummaryCustom_getElem? s j hs hj

/-- Claim C9 witness at the 2001-character summary: the second delivered message
is the continuation marker followed by the second chunk. -/
theorem C9_continuation_witness :
    (sendSummaryCustom (List.replicate 2001 'a'))[1]? =
      some (contMarker 2 2 ++ List.replicate 1 'a') := by
  have h := (C9_continuation (List.replicate 2001 'a')).2
    (by rw [List.length_replicate]; omega) 1 (by norm_num)
  rw [h, splitChunks_replicate_2001, getElem?_one]
  rfl

lemma sendSummaryCustom_message (s : Str) (j : Nat) (c : Str) (hs : 2000 < s.length)
    (hj : 0 < j) (hc : (splitChunks s)[j]? = some c) :
    (sendSummaryCustom s)[j]? = some (contMarker (j + 1) (splitChunks s).length ++ c) := by
  rw [sendSummaryCustom_getElem? s j hs hj, hc]
  rfl

/-- Claim C10: in `summarize_custom` delivery the continuation marker is
prepended to the chunk text of the message actually sent, so for every summary
longer than 2000 characters every delivered message after the first has the
chunk's length plus the marker's length; in particular for every summary of
4000 or more characters the second delivered message is strictly longer than
the 2000-character transport maximum. -/
theorem C10_custom_overlong (s : Str) :
    (2000 < s.length → ∀ j c, 0 < j → (splitChunks s)[j]? = some c →
        ∃ m, (sendSummaryCustom s)[j]? = some m
          ∧ m.length = (contMarker (j + 1) (splitChunks s).length).length + c.length)
    ∧ (4000 ≤ s.length →
        ∃ m, (sendSummaryCustom s)[1]? = some m ∧ 2000 < m.length) := by
  constructor
  · intro hs j c hj hc
    exact ⟨contMarker (j + 1) (splitChunks s).length ++ c,
      sendSummaryCustom_message s j c hs hj hc, by simp⟩
  · intro hs
    have hne : s ≠ [] := by
      intro h
      rw [h] at hs
      simp at hs
    have hdne : s.drop 2000 ≠ [] := by
      intro h
      have := congrArg List.length h
      rw [List.length_drop] at this
      simp at this
      omega
    have hchunk : (splitChunks s)[1]? = some ((s.drop 2000).take 2000) := by
      rw [splitChunks_eq_cons s hne, splitChunks_eq_cons _ hdne]
      exact getElem?_one _ _ _
    have hclen : ((s.drop 2000).take 2000).length = 2000 := by
      rw [List.length_take, List.length_drop]
      omega
    refine ⟨contMarker 2 (splitChunks s).length ++ (s.drop 2000).take 2000,
      sendSummaryCustom_message s 1 _ (by omega) (by norm_num) hchunk, ?_⟩
    rw [List.length_append, hclen]
    have : 0 < (contMarker 2 (splitChunks s).length).length := by
      unfold contMarker
      simp
    omega

/-- Claim C10 witness at the 4000-character summary. -/
theorem C10_custom_overlong_witness :
    4000 ≤ (List.replicate 4000 'a').length
    ∧ (∃ m, (sendSummaryCustom (List.replicate 4000 'a'))[1]? = some m ∧ 2000 < m.length) :=
  ⟨by rw [List.length_replicate], (C10_custom_overlong (List.replicate 4000 'a')).2
    (by rw [List.length_replicate])⟩


/-! ## Claim C1: the summarize command pipeline -/

/-- Claim C1 states that every invocation of the summarize command fetches a
relative window and returns a summary rather than failing.  The code cannot:
`summarize_command` calls `fetch_recent_messages` (line 324), a name bound
nowhere in the module, so every invocation raises NameError before any message
is fetched (and even with that fixed, `summarizer.summarize_messages` at line
332 does not exist either).  This theorem records the failure at every
argument pair. -/
theorem C1_summarize_command_name_error (hours limit : Nat) :
    summarize_command_run hours limit
        = Except.error "NameError: name fetch_recent_messages is not defined"
    ∧ "fetch_recent_messages" ∉ moduleGlobalNames
    ∧ "summarize_messages" ∉ messageSummarizerMethods := by
  refine ⟨?_, by decide, by decide⟩
  unfold summarize_command_run
  rw [if_neg (by decide)]

/-! ## Claim C3: no credential, no backend call -/

/-- Claim C3: if no generation-backend credential is configured at
construction time (the key is absent or empty, so `self.client` is None),
then for every non-empty message list `summarize_messages_custom` never
attempts a backend call and returns exactly the FallbackSummarizer result. -/
theorem C3_no_credential_fallback (apiKey : Option String)
    (backend : Str → Except Str Str) (messages : List Str)
    (channelName customPrompt now : Str)
    (hkey : hasClient apiKey = false) (hmsgs : messages ≠ []) :
    summarize_messages_custom apiKey backend messages channelName customPrompt now
      = ⟨_create_simple_summary messages channelName, false⟩ := by
  unfold summarize_messages_custom
  rw [if_neg hmsgs, if_neg (by rw [hkey]; intro h; exact Bool.false_ne_true h)]

/-- Claim C3 witness: no key, one message; the run is the fallback output with
no backend call. -/
theorem C3_no_credential_fallback_witness :
    hasClient none = false
    ∧ (["alice: hi".toList] : List Str) ≠ []
    ∧ summarize_messages_custom none (fun _ => Except.error "never called".toList)
        ["alice: hi".toList] "general".toList "focus".toList "2025-05-22 10:00 UTC".toList
      = ⟨_create_simple_summary ["alice: hi".toList] "general".toList, false⟩ :=
  ⟨by decide, by decide,
    C3_no_credential_fallback none (fun _ => Except.error "never called".toList)
      ["alice: hi".toList] "general".toList "focus".toList "2025-05-22 10:00 UTC".toList
      (by decide) (by decide)⟩

/-! ## Claim C4: the 90-day clamp -/

/-- Claim C4: for every parsed start/end day pair, a requested range spanning
more than 90 days (inclusive of both end days, exactly the code's
`days_diff`) — and no shorter range — is clamped to the most recent 90 days
anchored at the end date: the effective start becomes the end-of-end-day
bound minus 90 days, while the exclusive end bound (end date + 1 day) is
unchanged. -/
theorem C4_date_clamp (startDay endDay : Int) :
    (90 < endDay - startDay + 1 →
      clampDateWindow startDay endDay = (endDay + 1 - 90, endDay + 1))
    ∧ (endDay - startDay + 1 ≤ 90 →
      clampDateWindow startDay endDay = (startDay, endDay + 1)) := by
  constructor
  · intro h
    unfold clampDateWindow
    rw [if_pos (by omega)]
  · intro h
    unfold clampDateWindow
    rw [if_neg (by omega)]

/-- Claim C4 witness: a 120-day request (days 0 through 119) is clamped to the
90 days anchored at the end bound, which itself is unchanged. -/
theorem C4_date_clamp_witness :
    90 < (119 : Int) - 0 + 1
    ∧ clampDateWindow 0 119 = (119 + 1 - 90, 119 + 1) :=
  ⟨by norm_num, (C4_date_clamp 0 119).1 (by norm_num)⟩

/-! ## Claim C5: fallback on small windows -/

/-- Claim C5: for every window of at most 5 messages and every channel label,
the fallback output is the header carrying the window's message count
followed by the bullet lines of the first min(3, |W|) messages, and each
excerpt is at most 103 characters: the first 100 characters with the ellipsis
marker appended exactly when the message exceeds 100 characters. -/
theorem C5_fallback_small (messages : List Str) (channelName : Str)
    (h : messages.length ≤ 5) :
    _create_simple_summary messages channelName =
      "**Summary of #".toList ++ channelName ++ "** (".toList ++ natStr messages.length
        ++ " messages):\n\n".toList
        ++ "This was a brief conversation with the following key messages:\n".toList
        ++ List.intercalate "\n".toList ((messages.take 3).map bulletLine)
    ∧ ((messages.take 3).map excerpt).length = min 3 messages.length
    ∧ ∀ m ∈ messages.take 3,
        bulletLine m = "• ".toList ++ excerpt m
        ∧ (excerpt m).length ≤ 103
        ∧ (100 < m.length → excerpt m = m.take 100 ++ "...".toList)
        ∧ (m.length ≤ 100 → excerpt m = m) := by
  refine ⟨by rw [_create_simple_summary, if_pos h], ?_, ?_⟩
  · rw [List.length_map, List.length_take]
  · intro m _
    refine ⟨?_, ?_, fun h100 => by rw [excerpt, if_pos h100],
      fun h100 => by rw [excerpt, if_neg (by omega)]⟩
    · unfold bulletLine excerpt
      by_cases h100 : 100 < m.length
      · rw [if_pos h100, if_pos h100, List.append_assoc]
      · rw [if_neg h100, if_neg h100]
    · unfold excerpt
      by_cases h100 : 100 < m.length
      · rw [if_pos h100, List.length_append, List.length_take]
        have h3 : ("...".toList).length = 3 := by decide
        omega
      · rw [if_neg h100]
        omega

/-- Claim C5 witness at a two-message window. -/
theorem C5_fallback_small_witness :
    (["a: x".toList, "b: y".toList] : List Str).length ≤ 5
    ∧ (_create_simple_summary ["a: x".toList, "b: y".toList] "g".toList =
        "**Summary of #".toList ++ "g".toList ++ "** (".toList
          ++ natStr (["a: x".toList, "b: y".toList] : List Str).length
          ++ " messages):\n\n".toList
          ++ "This was a brief conversation with the following key messages:\n".toList
          ++ List.intercalate "\n".toList
              ((([ "a: x".toList, "b: y".toList] : List Str).take 3).map bulletLine)
      ∧ ((([ "a: x".toList, "b: y".toList] : List Str).take 3).map excerpt).length
          = min 3 (["a: x".toList, "b: y".toList] : List Str).length
      ∧ ∀ m ∈ (["a: x".toList, "b: y".toList] : List Str).take 3,
          bulletLine m = "• ".toList ++ excerpt m
          ∧ (excerpt m).length ≤ 103
          ∧ (100 < m.length → excerpt m = m.take 100 ++ "...".toList)
          ∧ (m.length ≤ 100 → excerpt m = m)) :=
  ⟨by decide, C5_fallback_small ["a: x".toList, "b: y".toList] "g".toList (by decide)⟩

/-! ## Claim C6: fallback participant extraction -/

lemma addParticipant_nodup (acc : List Str) (msg : Str) (hacc : acc.Nodup) :
    (addParticipant acc msg).Nodup := by
  unfold addParticipant
  by_cases hc : msg.contains ':'
  · rw [if_pos hc]
    by_cases hmem : beforeColon msg ∈ acc
    · rw [if_pos hmem]
      exact hacc
    · rw [if_neg hmem]
      refine (List.perm_append_singleton _ _).nodup_iff.mpr ?_
      exact List.nodup_cons.mpr ⟨hmem, hacc⟩
  · rw [if_neg hc]
    exact hacc

lemma foldl_addParticipant_nodup (messages : List Str) :
    ∀ acc : List Str, acc.Nodup → (messages.foldl addParticipant acc).Nodup := by
  induction messages with
  | nil =>
      intro acc hacc
      rw [List.foldl_nil]
      exact hacc
  | cons m rest ih =>
      intro acc hacc
      rw [List.foldl_cons]
      exact ih _ (addParticipant_nodup acc m hacc)

lemma collectParticipants_nodup (messages : List Str) :
    (collectParticipants messages).Nodup :=
  foldl_addParticipant_nodup messages [] List.nodup_nil

lemma foldl_addParticipant_mem (messages : List Str) :
    ∀ (acc : List Str) (p : Str), p ∈ messages.foldl addParticipant acc →
      p ∈ acc ∨ ∃ m ∈ messages, m.contains ':' = true ∧ p = beforeColon m := by
  induction messages with
  | nil =>
      intro acc p hp
      rw [List.foldl_nil] at hp
      exact Or.inl hp
  | cons m rest ih =>
      intro acc p hp
      rw [List.foldl_cons] at hp
      rcases ih _ p hp with hstep | ⟨m2, hm2, hc2, hp2⟩
      · unfold addParticipant at hstep
        by_cases hc : m.contains ':'
        · rw [if_pos hc] at hstep
          by_cases hmem : beforeColon m ∈ acc
          · rw [if_pos hmem] at hstep
            exact Or.inl hstep
          · rw [if_neg hmem] at hstep
            rcases List.mem_append.mp hstep with hin | hone
            · exact Or.inl hin
            · rw [List.mem_singleton] at hone
              exact Or.inr ⟨m, List.mem_cons_self m rest, hc, hone⟩
        · rw [if_neg hc] at hstep
          exact Or.inl hstep
      · exact Or.inr ⟨m2, List.mem_cons_of_mem m hm2, hc2, hp2⟩

lemma collectParticipants_mem (messages : List Str) (p : Str)
    (hp : p ∈ collectParticipants messages) :
    ∃ m ∈ messages, m.contains ':' = true ∧ p = beforeColon m := by
  rcases foldl_addParticipant_mem messages [] p hp with h0 | hex
  · exact absurd h0 (List.not_mem_nil p)
  · exact hex

/-- Claim C6 counterexample: the claim says the listed participant identifiers
are exactly the distinct author display names, but the extraction takes the
text before the FIRST colon of each formatted message, and the date-range
format places a colon inside the timestamp: a window of six messages, all by
alice, yields the identifier "alice (2025-05-20 10", which is not any
author's display name. -/
theorem C6_fallback_participants_counterexample :
    5 < exMessages.length
    ∧ "alice (2025-05-20 10".toList ∈ collectParticipants exMessages
    ∧ "alice (2025-05-20 10".toList ∉ exRawMsgs.map RawMsg.author
    ∧ collectParticipants exMessages ≠ (exRawMsgs.map RawMsg.author).dedup := by
  refine ⟨by decide, by decide, by decide, by decide⟩

/-- Claim C6 (amended): for every window of more than 5 messages and every
channel label, the fallback output carries a header with the message count
and lists at most 5 distinct participant identifiers even when more are
present — where a participant identifier is the text of a message before its
first colon (for date-range-formatted messages this is the display name plus
the date and hour, not the author display name alone). -/
theorem C6_fallback_participants (messages : List Str) (channelName : Str)
    (h : 5 < messages.length) :
    _create_simple_summary messages channelName =
      "**Summary of #".toList ++ channelName ++ "** (".toList ++ natStr messages.length
        ++ " messages):\n\n".toList
        ++ "🗣️ **Participants**: ".toList
        ++ List.intercalate ", ".toList ((collectParticipants messages).take 5)
        ++ "\n".toList
        ++ "📅 **Time Range**: Recent activity\n".toList
        ++ "💬 **Activity Level**: ".toList ++ natStr messages.length
        ++ " messages exchanged\n\n".toList
        ++ "⚠️ *Detailed AI summary unavailable - Claude API key not configured*".toList
    ∧ ((collectParticipants messages).take 5).length ≤ 5
    ∧ ((collectParticipants messages).take 5).Nodup
    ∧ ∀ p ∈ (collectParticipants messages).take 5,
        ∃ m ∈ messages, m.contains ':' = true ∧ p = beforeColon m := by
  refine ⟨by rw [_create_simple_summary, if_neg (by omega)], ?_, ?_, ?_⟩
  · rw [List.length_take]
    omega
  · exact List.Nodup.sublist (List.take_sublist 5 _) (collectParticipants_nodup messages)
  · intro p hp
    exact collectParticipants_mem messages p (List.mem_of_mem_take hp)

/-- Claim C6 witness at the six-message window of the counterexample. -/
theorem C6_fallback_participants_witness :
    5 < exMessages.length
    ∧ (_create_simple_summary exMessages "general".toList =
        "**Summary of #".toList ++ "general".toList ++ "** (".toList
          ++ natStr exMessages.length ++ " messages):\n\n".toList
          ++ "🗣️ **Participants**: ".toList
          ++ List.intercalate ", ".toList ((collectParticipants exMessages).take 5)
          ++ "\n".toList
          ++ "📅 **Time Range**: Recent activity\n".toList
          ++ "💬 **Activity Level**: ".toList ++ natStr exMessages.length
          ++ " messages exchanged\n\n".toList
          ++ "⚠️ *Detailed AI summary unavailable - Claude API key not configured*".toList
      ∧ ((collectParticipants exMessages).take 5).length ≤ 5
      ∧ ((collectParticipants exMessages).take 5).Nodup
      ∧ ∀ p ∈ (collectParticipants exMessages).take 5,
          ∃ m ∈ exMessages, m.contains ':' = true ∧ p = beforeColon m) :=
  ⟨by decide, C6_fallback_participants exMessages "general".toList (by decide)⟩

/-! ## Claim C7: the 150000-character prompt budget -/

/-- Claim C7: for every combined blob longer than the 150000-character budget,
the prompt-building step retains exactly the trailing 150000-character slice
(a suffix of the blob of that exact length); a blob within budget passes
unmodified. -/
theorem C7_prompt_truncation (s : Str) :
    (150000 < s.length →
      truncateCombined s = s.drop (s.length - 150000)
      ∧ (truncateCombined s).length = 150000
      ∧ truncateCombined s <:+ s)
    ∧ (s.length ≤ 150000 → truncateCombined s = s) := by
  constructor
  · intro h
    unfold truncateCombined
    rw [if_pos h]
    refine ⟨rfl, ?_, List.drop_suffix _ _⟩
    rw [List.length_drop]
    omega
  · intro h
    unfold truncateCombined
    rw [if_neg (by omega)]

/-- Claim C7 witness at a blob one character over budget. -/
theorem C7_prompt_truncation_witness :
    truncateCombined (List.replicate 150001 'a')
        = (List.replicate 150001 'a').drop ((List.replicate 150001 'a').length - 150000)
    ∧ (truncateCombined (List.replicate 150001 'a')).length = 150000
    ∧ truncateCombined (List.replicate 150001 'a') <:+ List.replicate 150001 'a' :=
  (C7_prompt_truncation (List.replicate 150001 'a')).1 (by rw [List.length_replicate]; omega)

/-! ## Claim C8: retrieval errors yield the empty window -/

lemma historyLoop_error_of_mem (items : List HistoryItem) (e : Str)
    (hmem : HistoryItem.err e ∈ items) :
    ∀ acc : List Str, ∃ e2, historyLoop acc items = Except.error e2 := by
  induction items with
  | nil => exact absurd hmem (List.not_mem_nil _)
  | cons it rest ih =>
      intro acc
      cases it with
      | err e3 => exact ⟨e3, rfl⟩
      | msg m =>
          have hmem2 : HistoryItem.err e ∈ rest := by
            rcases List.mem_cons.mp hmem with hhead | htail
            · exact absurd hhead (by simp)
            · exact htail
          exact ih hmem2 (if m.bot then acc else acc ++ [formatDateRangeMsg m])

/-- Claim C8: for every channel history and parsed date range, if the
retrieval raises an error at any point of the iteration — permission failure
or any other error, even after messages were already accumulated — the
date-range fetch returns the empty list rather than propagating the error or
returning a partial window. -/
theorem C8_fetch_error_empty (startDay endDay : Int)
    (history : Int × Int → List HistoryItem) (e : Str)
    (hmem : HistoryItem.err e ∈ history (clampDateWindow startDay endDay)) :
    fetch_messages_by_date_range startDay endDay history = [] := by
  obtain ⟨e2, he2⟩ := historyLoop_error_of_mem _ e hmem []
  unfold fetch_messages_by_date_range
  rw [he2]

/-- Claim C8 witness: a history that delivers one message and then raises a
permission error yields the empty window. -/
theorem C8_fetch_error_empty_witness :
    HistoryItem.err "Forbidden".toList ∈
      (fun _ : Int × Int =>
        [HistoryItem.msg ⟨"alice".toList, "2025-05-20 10:30".toList, "hi".toList, false⟩,
         HistoryItem.err "Forbidden".toList]) (clampDateWindow 0 1)
    ∧ fetch_messages_by_date_range 0 1
        (fun _ : Int × Int =>
          [HistoryItem.msg ⟨"alice".toList, "2025-05-20 10:30".toList, "hi".toList, false⟩,
           HistoryItem.err "Forbidden".toList]) = [] :=
  ⟨by decide, C8_fetch_error_empty 0 1
    (fun _ : Int × Int =>
      [HistoryItem.msg ⟨"alice".toList, "2025-05-20 10:30".toList, "hi".toList, false⟩,
       HistoryItem.err "Forbidden".toList]) "Forbidden".toList (by decide)⟩
